import Mathlib

/-!
Verification of the change-detection scheduler (`src/main.py`)

Shallow embedding of the monitoring script: the per-site mutable state
(`STATE` entries), the fingerprint helper `simple_hash`, the two check
strategies `check_with_requests` / `check_with_selenium`, the shared
Selenium driver lifecycle (`ensure_driver` and the teardown in the
selenium error handler), and the due-ness test of `monitor_loop`.

External effects are modelled as explicit parameters:
* Python's builtin `hash` on strings is an arbitrary function
  `pyHash : String → Int` (process-stable, otherwise unconstrained);
* the HTTP transport is a function from the optional `If-None-Match`
  header value to either an exception message or a response;
* Selenium construction and rendering are an optional fresh handle and a
  per-handle render result.

Timestamps are integer seconds (`Int`); `timedelta(days=1)` is 86400
seconds, matching `total_seconds()` on whole-second instants.
-/

/-- One entry of the `STATE` dict: `{"last_run": None, "etag": None, "last_hash": None}`.
`last_run` is a timestamp in seconds, `etag` the stored validator string,
`last_hash` the stored 32-bit fingerprint. -/
structure SiteState where
  last_run : Option Int
  etag : Option String
  last_hash : Option Nat
deriving Repr, DecidableEq

/-- Model of `simple_hash(text) = hash(text) & 0xffffffff`.  Python's `hash` is an
arbitrary (process-stable) integer-valued function `pyHash`; masking with
`0xffffffff` is reduction mod `2^32` (Python's `&` on negative ints uses
two's complement, which agrees with the mathematical mod). -/
def simple_hash (pyHash : String → Int) (text : String) : Nat :=
  (pyHash text % 4294967296).toNat

/-- The `If-None-Match` header value attached by `check_with_requests`:
`if state.get("etag"): headers["If-None-Match"] = state["etag"]`.
Python truthiness: `None` and the empty string are falsy, so the header is
attached exactly when a non-empty validator is stored. -/
def if_none_match (state : SiteState) : Option String :=
  match state.etag with
  | some t => if t = "" then none else some t
  | none => none

/-- An HTTP response as `check_with_requests` consumes it: `r.status_code`,
`r.text`, and the `ETag` response header when present. -/
structure HttpResponse where
  status_code : Nat
  text : String
  etag : Option String
deriving Repr, DecidableEq

/-- Model of `check_with_requests(site)`: conditional GET, 304 short-circuit, status
check, prefix fingerprint and comparison.  `respond` is the external
transport (`requests.get`), receiving the optional `If-None-Match` value and
returning either an exception message or a response.  Returns the
`(changed, reason)` pair together with the updated `STATE` entry. -/
def check_with_requests (pyHash : String → Int)
    (respond : Option String → Except String HttpResponse)
    (state : SiteState) : Bool × String × SiteState :=
  match respond (if_none_match state) with
  | .error e => (false, "error: " ++ e, state)
  | .ok r =>
    if r.status_code = 304 then
      (false, "not modified", state)
    else if r.status_code ≠ 200 then
      (false, "status " ++ toString r.status_code, state)
    else
      let h := simple_hash pyHash (r.text.take 5000)
      if state.last_hash = some h then
        (false, "no change", state)
      else
        let state1 : SiteState := { state with last_hash := some h }
        let state2 : SiteState :=
          match r.etag with
          | some t => { state1 with etag := some t }
          | none => state1
        (true, "changed", state2)

/-- The Selenium-side environment of one check: the outcome of
`make_driver()` (a fresh handle, or `none` when construction raises), the
outcome of `d.get(url); …; d.page_source` per handle (final HTML or an
exception message), and whether `d.quit()` would raise during teardown
(the code swallows that exception, so behaviour never depends on it). -/
structure SelEnv where
  make_driver : Option Nat
  render : Nat → Except String String
  quit_fails : Bool

/-- Model of `ensure_driver()`: returns the existing handle if present, otherwise
attempts construction; a construction failure is caught and leaves the
global `driver` at `None`.  The returned value is also the new value of the
global `driver`. -/
def ensure_driver (make : Option Nat) (driver : Option Nat) : Option Nat :=
  match driver with
  | some d => some d
  | none => make

/-- Model of `check_with_selenium(site)`: ensure the shared driver, render, prefix
fingerprint, compare.  On a render exception the handler calls `d.quit()`
(best-effort, its own exception swallowed — the result does not depend on
`env.quit_fails`) and sets the global `driver` to `None`.  Returns
`(changed, reason)`, the updated `STATE` entry, and the new global
`driver`. -/
def check_with_selenium (pyHash : String → Int) (env : SelEnv)
    (state : SiteState) (driver : Option Nat) :
    Bool × String × SiteState × Option Nat :=
  match ensure_driver env.make_driver driver with
  | none => (false, "no driver", state, none)
  | some d =>
    match env.render d with
    | .ok html =>
      let h := simple_hash pyHash (html.take 10000)
      if state.last_hash = some h then
        (false, "no change", state, some d)
      else
        (true, "changed", { state with last_hash := some h }, some d)
    | .error e =>
      (false, "error: " ++ e, state, none)

/-- The due-ness test of one `monitor_loop` iteration for one site:
`last = state.get("last_run") or (now - timedelta(days=1))` followed by
`(now - last).total_seconds() >= site["interval"]`.  An absent `last_run`
is replaced by `now` minus one day (86400 s). -/
def due (interval : Int) (last_run : Option Int) (now : Int) : Bool :=
  let last : Int :=
    match last_run with
    | some t => t
    | none => now - 86400
  now - last ≥ interval

/-- The due condition as the spec states it (for comparison with `due`,
which is translated from the code): due iff the last-check timestamp is
absent, or at least the interval has elapsed since it. -/
def spec_due (interval : Int) (last_run : Option Int) (now : Int) : Bool :=
  match last_run with
  | none => true
  | some t => now - t ≥ interval

/-- Scheduler bookkeeping for a single site across rounds: the `last_run`
field of its `STATE` entry, plus the (ghost) list of instants at which a
check was dispatched for it. -/
structure SchedState where
  last_run : Option Int
  dispatches : List Int
deriving Repr, DecidableEq

/-- One `monitor_loop` round, projected to a single site: if the site is
due at instant `now`, the code sets `state["last_run"] = now` *before*
dispatching the check; otherwise nothing happens.  The check itself never
touches `last_run`, so its outcome is irrelevant here. -/
def sched_step (interval : Int) (st : SchedState) (now : Int) : SchedState :=
  if due interval st.last_run now then
    { last_run := some now, dispatches := st.dispatches ++ [now] }
  else
    st

/-- The scheduler observed at a list of round instants (one `now` per
round), starting from a given bookkeeping state. -/
def sched_run (interval : Int) (st : SchedState) (times : List Int) : SchedState :=
  times.foldl (sched_step interval) st

/-- The initial `STATE` entry: `{"last_run": None, ...}` with no dispatches
recorded yet. -/
def sched_init : SchedState := ⟨none, []⟩

-- Sanity checks on the embedding.
example : due 300 none 0 = true := by decide
example : due 100000 none 0 = false := by decide
example : due 300 (some 0) 299 = false := by decide
example : due 300 (some 0) 300 = true := by decide
example : simple_hash (fun _ => -1) "x" = 4294967295 := by decide
example :
    check_with_requests (fun _ => 7)
      (fun _ => .ok ⟨304, "body", none⟩) ⟨none, none, none⟩ =
    (false, "not modified", ⟨none, none, none⟩) := rfl
example :
    check_with_requests (fun _ => 7)
      (fun _ => .ok ⟨200, "body", some "E"⟩) ⟨none, none, none⟩ =
    (true, "changed", ⟨none, some "E", some 7⟩) := rfl

/-! Section C9: fingerprint determinism and width -/

/-- C9: `simple_hash` is deterministic — it is a function of its input, so
identical content always yields identical digests — and its value lies in
`[0, 2^32)`: the mask `& 0xffffffff` keeps exactly 32 bits. -/
theorem simple_hash_deterministic_and_32bit (pyHash : String → Int) (text : String) :
    simple_hash pyHash text = simple_hash pyHash text ∧
    simple_hash pyHash text < 4294967296 := by
  refine ⟨rfl, ?_⟩
  unfold simple_hash
  omega

/-! Section C1: the due-ness test -/

/-- C1 (counterexample): the claim says a never-checked resource is due
regardless of how large its interval is; but the code substitutes
`now - timedelta(days=1)` for an absent `last_run`, so with
`interval = 100000 > 86400` and no prior check, `due` is `false` while the
spec-side condition is `true` — the check is not dispatched. -/
theorem due_never_checked_counterexample :
    due 100000 none 0 = false ∧ spec_due 100000 none 0 = true := by
  constructor <;> rfl

/-- C1 (amended): a check is dispatched iff `now - lastCheck ≥ interval`
when a last-check timestamp is present, and iff `interval ≤ 86400` seconds
when it is absent (the code treats an absent last-check as one day ago);
in particular `due` agrees with the spec's condition whenever
`interval ≤ 86400`, so a never-checked resource is due immediately exactly
when its interval is at most one day. -/
theorem due_characterization :
    (∀ (interval now : Int) (t : Int),
      due interval (some t) now = true ↔ now - t ≥ interval) ∧
    (∀ (interval now : Int),
      due interval none now = true ↔ interval ≤ 86400) ∧
    (∀ (interval : Int) (last_run : Option Int) (now : Int),
      interval ≤ 86400 →
      due interval last_run now = spec_due interval last_run now) := by
  refine ⟨?_, ?_, ?_⟩
  · intro interval now t
    simp [due]
  · intro interval now
    simp only [due, decide_eq_true_eq, ge_iff_le]
    omega
  · intro interval last_run now h
    cases last_run with
    | none => simp [due, spec_due]; omega
    | some t => simp [due, spec_due]

/-- Witness for `due_characterization`: at `interval = 300`, never checked,
`now = 0`, the code and the spec agree that the resource is due. -/
theorem due_characterization_witness :
    (300 : Int) ≤ 86400 ∧ due 300 none 0 = spec_due 300 none 0 :=
  ⟨by decide, due_characterization.2.2 300 none 0 (by decide)⟩

/-! Section C6: 304 short-circuit -/

/-- C6: a 304 response makes `check_with_requests` return Unchanged
("not modified") immediately with the `STATE` entry untouched (fingerprint
and validator included), and the result does not depend on the hash
function at all — no fingerprint is computed. -/
theorem not_modified_short_circuit (pyHash pyHash' : String → Int)
    (respond : Option String → Except String HttpResponse)
    (state : SiteState) (r : HttpResponse)
    (hresp : respond (if_none_match state) = .ok r)
    (h304 : r.status_code = 304) :
    check_with_requests pyHash respond state = (false, "not modified", state) ∧
    check_with_requests pyHash' respond state = check_with_requests pyHash respond state := by
  constructor <;> simp [check_with_requests, hresp, h304]

/-- Witness for `not_modified_short_circuit` at a concrete 304 response. -/
theorem not_modified_short_circuit_witness :
    ((fun _ : Option String => (.ok ⟨304, "body", none⟩ : Except String HttpResponse))
        (if_none_match ⟨none, some "E1", some 5⟩) = .ok ⟨304, "body", none⟩) ∧
    check_with_requests (fun _ => 7)
        (fun _ => .ok ⟨304, "body", none⟩) ⟨none, some "E1", some 5⟩ =
      (false, "not modified", ⟨none, some "E1", some 5⟩) :=
  ⟨rfl,
    (not_modified_short_circuit (fun _ => 7) (fun _ => 9)
      (fun _ => .ok ⟨304, "body", none⟩) ⟨none, some "E1", some 5⟩
      ⟨304, "body", none⟩ rfl rfl).1⟩

/-! Section C2: new validator is NOT stored on the equal-fingerprint path -/

/-- C2 (counterexample): a 200 response whose body fingerprint equals the
stored one but which carries a new `ETag "new"` leaves the stored validator
at `"old"` — the code returns from the `no change` branch *before* the
`ETag` update, so the new validator is not stored, contradicting the claim. -/
theorem unchanged_keeps_old_etag_counterexample :
    ((⟨some 0, some "old", some 0⟩ : SiteState).last_hash
        = some (simple_hash (fun _ => 0) (("X" : String).take 5000))) ∧
    check_with_requests (fun _ => 0)
        (fun _ => .ok ⟨200, "X", some "new"⟩)
        ⟨some 0, some "old", some 0⟩ =
      (false, "no change", ⟨some 0, some "old", some 0⟩) ∧
    (some "old" : Option String) ≠ some "new" := by
  refine ⟨rfl, rfl, by decide⟩

/-- C2 (amended): when a 200 response's body fingerprint equals the stored
one, `check_with_requests` returns Unchanged and the `STATE` entry entirely
unchanged — validator included, even when the response supplied a new one
(the last-check time is updated separately by the scheduler at dispatch). -/
theorem unchanged_equal_fingerprint_state (pyHash : String → Int)
    (respond : Option String → Except String HttpResponse)
    (state : SiteState) (r : HttpResponse)
    (hresp : respond (if_none_match state) = .ok r)
    (h200 : r.status_code = 200)
    (hhash : state.last_hash = some (simple_hash pyHash (r.text.take 5000))) :
    check_with_requests pyHash respond state = (false, "no change", state) := by
  simp [check_with_requests, hresp, h200, hhash]

/-- Witness for `unchanged_equal_fingerprint_state`: the counterexample
input, with the new-`ETag` response and matching fingerprint. -/
theorem unchanged_equal_fingerprint_state_witness :
    check_with_requests (fun _ => 0)
        (fun _ => .ok ⟨200, "X", some "new"⟩)
        ⟨some 0, some "old", some 0⟩ =
      (false, "no change", ⟨some 0, some "old", some 0⟩) :=
  unchanged_equal_fingerprint_state (fun _ => 0)
    (fun _ => .ok ⟨200, "X", some "new"⟩)
    ⟨some 0, some "old", some 0⟩ ⟨200, "X", some "new"⟩ rfl rfl rfl

/-! Section C3: error outcomes leave fingerprint and validator untouched -/

/-- C3: every error path of either check strategy — transport exception,
non-success non-304 status, missing driver, render exception — returns the
`STATE` entry exactly as it was, fingerprint and validator included. -/
theorem error_outcome_preserves_state :
    (∀ (pyHash : String → Int) (respond : Option String → Except String HttpResponse)
        (state : SiteState) (e : String),
      respond (if_none_match state) = .error e →
      check_with_requests pyHash respond state = (false, "error: " ++ e, state)) ∧
    (∀ (pyHash : String → Int) (respond : Option String → Except String HttpResponse)
        (state : SiteState) (r : HttpResponse),
      respond (if_none_match state) = .ok r →
      r.status_code ≠ 304 → r.status_code ≠ 200 →
      check_with_requests pyHash respond state =
        (false, "status " ++ toString r.status_code, state)) ∧
    (∀ (pyHash : String → Int) (env : SelEnv) (state : SiteState) (driver : Option Nat),
      ensure_driver env.make_driver driver = none →
      check_with_selenium pyHash env state driver = (false, "no driver", state, none)) ∧
    (∀ (pyHash : String → Int) (env : SelEnv) (state : SiteState)
        (driver : Option Nat) (d : Nat) (e : String),
      ensure_driver env.make_driver driver = some d →
      env.render d = .error e →
      check_with_selenium pyHash env state driver = (false, "error: " ++ e, state, none)) := by
  refine ⟨?_, ?_, ?_, ?_⟩
  · intro pyHash respond state e h
    simp [check_with_requests, h]
  · intro pyHash respond state r h h304 h200
    simp [check_with_requests, h, h304, h200]
  · intro pyHash env state driver h
    simp [check_with_selenium, h]
  · intro pyHash env state driver d e hd hr
    simp [check_with_selenium, hd, hr]

/-- Witness for `error_outcome_preserves_state`: all four error paths at
concrete inputs (transport exception, a 500 status, failed driver
construction, a render exception). -/
theorem error_outcome_preserves_state_witness :
    check_with_requests (fun _ => 3) (fun _ => .error "timeout")
        ⟨some 1, some "E", some 9⟩ =
      (false, "error: " ++ "timeout", ⟨some 1, some "E", some 9⟩) ∧
    check_with_requests (fun _ => 3) (fun _ => .ok ⟨500, "oops", none⟩)
        ⟨some 1, some "E", some 9⟩ =
      (false, "status " ++ toString (500 : Nat), ⟨some 1, some "E", some 9⟩) ∧
    check_with_selenium (fun _ => 3) ⟨none, fun _ => .ok "page", false⟩
        ⟨some 1, some "E", some 9⟩ none =
      (false, "no driver", ⟨some 1, some "E", some 9⟩, none) ∧
    check_with_selenium (fun _ => 3) ⟨some 1, fun _ => .error "crash", false⟩
        ⟨some 1, some "E", some 9⟩ (some 7) =
      (false, "error: " ++ "crash", ⟨some 1, some "E", some 9⟩, none) :=
  ⟨error_outcome_preserves_state.1 (fun _ => 3) (fun _ => .error "timeout")
      ⟨some 1, some "E", some 9⟩ "timeout" rfl,
   error_outcome_preserves_state.2.1 (fun _ => 3) (fun _ => .ok ⟨500, "oops", none⟩)
      ⟨some 1, some "E", some 9⟩ ⟨500, "oops", none⟩ rfl (by decide) (by decide),
   error_outcome_preserves_state.2.2.1 (fun _ => 3) ⟨none, fun _ => .ok "page", false⟩
      ⟨some 1, some "E", some 9⟩ none rfl,
   error_outcome_preserves_state.2.2.2 (fun _ => 3) ⟨some 1, fun _ => .error "crash", false⟩
      ⟨some 1, some "E", some 9⟩ (some 7) 7 "crash" rfl rfl⟩

/-! Section C7: absent fingerprint means the first successful check is Changed -/

/-- C7: when no fingerprint is stored, any check that successfully obtains
content reports Changed and stores the computed fingerprint, on both the
requests path and the selenium path; the absent value (`none`) is never
equal to any computed digest (`some h`). -/
theorem first_success_is_changed :
    (∀ (pyHash : String → Int) (respond : Option String → Except String HttpResponse)
        (state : SiteState) (r : HttpResponse),
      state.last_hash = none →
      respond (if_none_match state) = .ok r →
      r.status_code = 200 →
      (check_with_requests pyHash respond state).1 = true ∧
      (check_with_requests pyHash respond state).2.2.last_hash =
        some (simple_hash pyHash (r.text.take 5000))) ∧
    (∀ (pyHash : String → Int) (env : SelEnv) (state : SiteState)
        (driver : Option Nat) (d : Nat) (html : String),
      state.last_hash = none →
      ensure_driver env.make_driver driver = some d →
      env.render d = .ok html →
      (check_with_selenium pyHash env state driver).1 = true ∧
      (check_with_selenium pyHash env state driver).2.2.1.last_hash =
        some (simple_hash pyHash (html.take 10000))) ∧
    (∀ h : Nat, (none : Option Nat) ≠ some h) := by
  refine ⟨?_, ?_, ?_⟩
  · intro pyHash respond state r hnone hresp h200
    cases hetag : r.etag <;>
      simp [check_with_requests, hresp, h200, hnone, hetag]
  · intro pyHash env state driver d html hnone hd hr
    simp [check_with_selenium, hd, hr, hnone]
  · intro h
    simp

/-- Witness for `first_success_is_changed`: a fresh state, a 200 response
and a successful render, both yielding Changed with the fingerprint
stored. -/
theorem first_success_is_changed_witness :
    (check_with_requests (fun _ => 7) (fun _ => .ok ⟨200, "body", some "E"⟩)
        ⟨none, none, none⟩).1 = true ∧
    (check_with_selenium (fun _ => 7) ⟨some 1, fun _ => .ok "page", false⟩
        ⟨none, none, none⟩ none).1 = true :=
  ⟨(first_success_is_changed.1 (fun _ => 7) (fun _ => .ok ⟨200, "body", some "E"⟩)
      ⟨none, none, none⟩ ⟨200, "body", some "E"⟩ rfl rfl rfl).1,
   (first_success_is_changed.2.1 (fun _ => 7) ⟨some 1, fun _ => .ok "page", false⟩
      ⟨none, none, none⟩ none 1 "page" rfl rfl rfl).1⟩

/-! Section C4: the interval floor between consecutive dispatches -/

/-- Invariant tying the dispatch history to `last_run`: dispatch instants
are separated by at least the interval, and after any dispatch `last_run`
holds the most recent dispatch instant. -/
def SchedInv (interval : Int) (st : SchedState) : Prop :=
  st.dispatches.Chain' (fun a b => interval ≤ b - a) ∧
  ∀ t, st.dispatches.getLast? = some t → st.last_run = some t

lemma due_some (interval t now : Int) (h : due interval (some t) now = true) :
    interval ≤ now - t := by
  simpa [due] using h

lemma sched_step_inv (interval : Int) (st : SchedState) (now : Int)
    (h : SchedInv interval st) : SchedInv interval (sched_step interval st now) := by
  unfold sched_step
  by_cases hd : due interval st.last_run now = true
  · simp only [hd, if_true]
    constructor
    · rw [List.chain'_append]
      refine ⟨h.1, List.chain'_singleton now, ?_⟩
      intro x hx y hy
      simp only [List.head?_cons, Option.mem_def, Option.some.injEq] at hy
      subst hy
      have hlast : st.last_run = some x := h.2 x hx
      rw [hlast] at hd
      exact due_some interval x now hd
    · intro t ht
      rw [List.getLast?_concat] at ht
      simp only [Option.some.injEq] at ht
      subst ht
      rfl
  · simp only [hd, if_false]
    exact h

lemma sched_run_inv (interval : Int) (times : List Int) (st : SchedState)
    (h : SchedInv interval st) : SchedInv interval (sched_run interval st times) := by
  induction times generalizing st with
  | nil => exact h
  | cons t ts ih => exact ih (sched_step interval st t) (sched_step_inv interval st t h)

/-- C4: the scheduler records `now` as `last_run` at dispatch time (before
the fetch runs, independent of its outcome), and therefore in any run from
the initial state the consecutive dispatch instants of a resource are
separated by at least its interval. -/
theorem interval_floor :
    (∀ (interval : Int) (times : List Int),
      (sched_run interval sched_init times).dispatches.Chain'
        (fun a b => interval ≤ b - a)) ∧
    (∀ (interval : Int) (st : SchedState) (now : Int),
      due interval st.last_run now = true →
      (sched_step interval st now).last_run = some now ∧
      (sched_step interval st now).dispatches = st.dispatches ++ [now]) := by
  constructor
  · intro interval times
    exact (sched_run_inv interval times sched_init
      ⟨List.chain'_nil, by intro t ht; simp [sched_init] at ht⟩).1
  · intro interval st now hd
    simp [sched_step, hd]

/-- Witness for `interval_floor`: a due resource at instant 0 with interval
300 gets `last_run = some 0` recorded and the dispatch logged. -/
theorem interval_floor_witness :
    due 300 sched_init.last_run 0 = true ∧
    (sched_step 300 sched_init 0).last_run = some 0 ∧
    (sched_step 300 sched_init 0).dispatches = sched_init.dispatches ++ [0] :=
  ⟨by decide, interval_floor.2 300 sched_init 0 (by decide)⟩

/-! Section C5: render errors tear the driver down before any reuse -/

/-- C5: when a render raises, the check returns Error with the state
untouched and the global driver set to `none` — regardless of whether the
best-effort `d.quit()` teardown itself raises — and `ensure_driver` on an
absent driver always attempts fresh construction, so the torn-down handle
is never reused. -/
theorem render_error_teardown (pyHash : String → Int) (env : SelEnv)
    (state : SiteState) (driver : Option Nat) (d : Nat) (e : String)
    (hd : ensure_driver env.make_driver driver = some d)
    (hr : env.render d = .error e) :
    check_with_selenium pyHash env state driver = (false, "error: " ++ e, state, none) ∧
    (∀ q : Bool, check_with_selenium pyHash ⟨env.make_driver, env.render, q⟩ state driver =
      check_with_selenium pyHash env state driver) ∧
    (∀ make : Option Nat, ensure_driver make none = make) := by
  refine ⟨?_, ?_, ?_⟩
  · simp [check_with_selenium, hd, hr]
  · intro q
    rfl
  · intro make
    rfl

/-- Witness for `render_error_teardown`: a live handle whose render
crashes; the driver slot comes back `none`. -/
theorem render_error_teardown_witness :
    check_with_selenium (fun _ => 3) ⟨some 1, fun _ => .error "tab crashed", true⟩
        ⟨none, none, some 4⟩ (some 7) =
      (false, "error: " ++ "tab crashed", ⟨none, none, some 4⟩, none) :=
  (render_error_teardown (fun _ => 3) ⟨some 1, fun _ => .error "tab crashed", true⟩
    ⟨none, none, some 4⟩ (some 7) 7 "tab crashed" rfl rfl).1

/-! Section C8: construction failure is non-fatal and retried lazily -/

/-- C8: if `make_driver` raises while no driver is live, `ensure_driver`
catches it (it is a total function) and the check returns the Error
outcome "no driver" with the state untouched and the driver still absent;
and `ensure_driver` on an absent driver always re-attempts construction
(no backoff), while a failed attempt leaves the driver absent. -/
theorem construction_failure_nonfatal (pyHash : String → Int)
    (rend : Nat → Except String String) (q : Bool) (state : SiteState) :
    check_with_selenium pyHash ⟨none, rend, q⟩ state none =
      (false, "no driver", state, none) ∧
    (∀ make : Option Nat, ensure_driver make none = make) ∧
    ensure_driver none none = none := by
  exact ⟨rfl, fun _ => rfl, rfl⟩

/-! Section C10: a stored validator is never cleared, but attachment needs it non-empty -/

/-- C10 (counterexample): a 200 response with an empty `ETag ""` header
stores `""` as the validator; a later 200 response without an `ETag`
retains it unchanged — but `if state.get("etag")` is false for the empty
string, so the stored validator is *not* attached as `If-None-Match` on
the next fetch, contradicting the claim. -/
theorem stored_empty_validator_not_attached_counterexample :
    (check_with_requests (fun _ => 0) (fun _ => .ok ⟨200, "A", some ""⟩)
        ⟨none, none, none⟩).2.2 = ⟨none, some "", some 0⟩ ∧
    (check_with_requests (fun _ => 0) (fun _ => .ok ⟨200, "B", none⟩)
        ⟨none, some "", some 0⟩).2.2 = ⟨none, some "", some 0⟩ ∧
    if_none_match ⟨none, some "", some 0⟩ = none := by
  refine ⟨rfl, rfl, rfl⟩

/-- C10 (amended): once a validator is stored it is never cleared — every
`check_with_requests` outcome leaves some validator stored — and after a
successful 200 response with no `ETag` header the previously stored
validator is retained unchanged; it is attached as `If-None-Match` on the
next fetch provided it is non-empty (Python truthiness: an empty-string
validator is retained but never attached). -/
theorem validator_never_cleared (pyHash : String → Int) (state : SiteState)
    (v : String) (hv : state.etag = some v) :
    (∀ respond : Option String → Except String HttpResponse,
      (check_with_requests pyHash respond state).2.2.etag ≠ none) ∧
    (∀ (respond : Option String → Except String HttpResponse) (r : HttpResponse),
      respond (if_none_match state) = .ok r →
      r.status_code = 200 →
      r.etag = none →
      (check_with_requests pyHash respond state).2.2.etag = some v ∧
      (v ≠ "" → if_none_match (check_with_requests pyHash respond state).2.2 = some v)) := by
  constructor
  · intro respond
    cases hr : respond (if_none_match state) with
    | error e => simp [check_with_requests, hr, hv]
    | ok r =>
      by_cases h304 : r.status_code = 304
      · simp [check_with_requests, hr, h304, hv]
      · by_cases h200 : r.status_code = 200
        · by_cases hh : state.last_hash = some (simple_hash pyHash (r.text.take 5000))
          · simp [check_with_requests, hr, h304, h200, hh, hv]
          · cases he : r.etag <;>
              simp [check_with_requests, hr, h304, h200, hh, he, hv]
        · simp [check_with_requests, hr, h304, h200, hv]
  · intro respond r hr h200 hetag
    have key : (check_with_requests pyHash respond state).2.2.etag = some v := by
      by_cases hh : state.last_hash = some (simple_hash pyHash (r.text.take 5000))
      · simp [check_with_requests, hr, h200, hh, hv]
      · simp [check_with_requests, hr, h200, hh, hetag, hv]
    refine ⟨key, ?_⟩
    intro hne
    simp [if_none_match, key, hne]

/-- Witness for `validator_never_cleared`: validator `"E1"` survives a 200
response without `ETag` and is attached on the next fetch. -/
theorem validator_never_cleared_witness :
    (check_with_requests (fun _ => 0) (fun _ => .ok ⟨200, "B", none⟩)
        ⟨none, some "E1", some 9⟩).2.2.etag = some "E1" ∧
    if_none_match (check_with_requests (fun _ => 0) (fun _ => .ok ⟨200, "B", none⟩)
        ⟨none, some "E1", some 9⟩).2.2 = some "E1" :=
  have h := (validator_never_cleared (fun _ => 0) ⟨none, some "E1", some 9⟩ "E1" rfl).2
    (fun _ => .ok ⟨200, "B", none⟩) ⟨200, "B", none⟩ rfl rfl rfl
  ⟨h.1, h.2 (by decide)⟩
